import Mathlib

/-!
Verification development for the image upload-resize-share service
(`src/main.py`, a FastAPI application built on PIL).

The application exposes one operation of interest, `upload_image`: it
rejects uploads whose declared content type is not JPEG or PNG, decodes
the uploaded bytes with PIL, resizes the decoded image to the 300x250
preset with the Lanczos filter, converts the result to RGB when needed,
saves it as a JPEG under a fresh UUID-based name in the `static`
directory, and returns an HTML page carrying the stored image URL and a
Twitter share-intent URL.

The embedding below threads the server state (the static-directory
contents and the UUID stream position) explicitly, and records the
externally observable actions of a request in a trace of `Event`s.
External library behaviour (PIL decode, filesystem writes) is passed in
as explicit oracles so that theorems quantify over it.
-/

namespace Z1

/-- Raw uploaded bytes (the body of the multipart file field). -/
abbrev Bytes := List Nat

/-- Model of a PIL in-memory image: pixel-buffer dimensions plus the
PIL color mode string (for example "RGB", "RGBA", "L", "P"). -/
structure PILImage where
  width : Nat
  height : Nat
  mode : String
  deriving Repr, DecidableEq

/-- PIL resampling filters; `src/main.py` line 30 passes
`Image.Resampling.LANCZOS`. -/
inductive Resampling where
  | NEAREST
  | BILINEAR
  | BICUBIC
  | LANCZOS
  deriving Repr, DecidableEq

/-- Externally observable actions performed while handling one upload
request. The last three are the remote actions of a direct-post
publishing strategy; they are listed so their absence is statable. -/
inductive Event where
  | readPixelData
  | resized (size : Nat × Nat) (filter : Resampling)
  | converted (fromMode toMode : String)
  | savedFile (path : String) (format : String) (img : PILImage)
  | authenticated
  | uploadedMedia
  | createdPost
  deriving Repr, DecidableEq

/-- Model of PIL `Image.resize`: returns an image with exactly the
requested `(width, height)` and the source's color mode, recording
which resampling filter was used. -/
def PIL_resize (image : PILImage) (size : Nat × Nat) (resample : Resampling) :
    PILImage × List Event :=
  ({ width := size.1, height := size.2, mode := image.mode }, [Event.resized size resample])

/-- Embedding of `resize_image` (`src/main.py` lines 25-32): resize to
`size` using the Lanczos filter. -/
def resize_image (image : PILImage) (size : Nat × Nat) : PILImage × List Event :=
  PIL_resize image size Resampling.LANCZOS

/-- Model of PIL `Image.convert`: same dimensions, new color mode. -/
def PIL_convert (image : PILImage) (mode : String) : PILImage :=
  { image with mode := mode }

/-- Model of Python `str.replace` for a one-character pattern and a
one-character replacement, which is a character-wise map. -/
def replaceChar (s : String) (pattern repl : Char) : String :=
  String.mk (s.data.map (fun c => if c = pattern then repl else c))

/-- The static directory name (`src/main.py` line 18). -/
def STATIC_DIR : String := "static"

/-- Model of `os.path.join` for one directory and one file name. -/
def os_path_join (dir name : String) : String := dir ++ "/" ++ name

/-- Model of `uuid.uuid4()`: a stream of identifiers indexed by how many
draws have happened so far. The real generator returns 122 random bits;
its contract, relied on by `src/main.py` line 95, is that successive
draws never repeat, which the model realises by making the stream
injective in the draw counter (the exact string shape is immaterial). -/
def uuid4 (n : Nat) : String :=
  String.mk ("00000000-0000-4000-8000-".data ++ List.replicate n 'f')

/-- The uploaded file as the handler sees it: the declared content type
and the raw bytes returned by `await file.read()`. -/
structure UploadFileModel where
  content_type : String
  contents : Bytes
  deriving Repr, DecidableEq

/-- The inbound request context; `request.base_url` is the externally
visible base address, for example "http://localhost:8000/". -/
structure RequestModel where
  base_url : String
  deriving Repr, DecidableEq

/-- Server-side state: the files stored in the static directory (path
paired with the saved image), and the UUID draw counter. -/
structure ServerState where
  storage : List (String × PILImage)
  uuidCounter : Nat
  deriving Repr, DecidableEq

/-- The failure outcomes of the upload handler. The first two are the
`HTTPException`s raised at `src/main.py` lines 74 and 83 (status code
plus detail string); the third models a failed filesystem write at
line 97 escaping the handler. -/
inductive UploadError where
  | unsupportedMediaType (status_code : Nat) (detail : String)
  | invalidImageData (status_code : Nat) (detail : String)
  | storageWriteFailed (path : String)
  deriving Repr, DecidableEq

/-- The successful response: the stored artifact URL, the Twitter
intent URL, and the HTML page wrapping both. -/
structure UploadResponse where
  image_url : String
  twitter_intent_url : String
  html : String
  deriving Repr, DecidableEq

/-- The HTML page returned on success (`src/main.py` lines 112-156),
with the intent URL and image URL interpolated. -/
def html_response (twitter_intent_url image_url : String) : String :=
  "\n    <html>\n      <head>\n        <title>Image Uploaded</title>\n        <style>\n" ++
  "            body \x7b\n                font-family: Arial, sans-serif;\n" ++
  "                margin: 40px;\n                background-color: #f4f4f4;\n            \x7d\n" ++
  "            .container \x7b\n                max-width: 600px;\n                margin: auto;\n" ++
  "                background: #fff;\n                padding: 20px;\n" ++
  "                border-radius: 8px;\n                box-shadow: 0 2px 4px rgba(0,0,0,0.1);\n" ++
  "            \x7d\n            .button \x7b\n                background-color: #1DA1F2;\n" ++
  "                color: white;\n                border: none;\n                padding: 15px 25px;\n" ++
  "                text-align: center;\n                text-decoration: none;\n" ++
  "                display: inline-block;\n                font-size: 16px;\n" ++
  "                cursor: pointer;\n                border-radius: 5px;\n            \x7d\n" ++
  "            .button:hover \x7b\n                background-color: #0d95e8;\n            \x7d\n" ++
  "        </style>\n      </head>\n      <body>\n        <div class=\"container\">\n" ++
  "          <h1>Image Uploaded and Processed</h1>\n" ++
  "          <p>Your image has been resized. Click the button below to post it on Twitter:</p>\n" ++
  "          <a href=\"" ++ twitter_intent_url ++ "\" target=\"_blank\" class=\"button\">Post to Twitter</a>\n" ++
  "          <p>Or view your image <a href=\"" ++ image_url ++ "\" target=\"_blank\">here</a>.</p>\n" ++
  "        </div>\n      </body>\n    </html>\n    "

/-- Model of writing a file: any existing file at `path` is replaced,
otherwise the new file is added. -/
def writeFile (storage : List (String × PILImage)) (path : String) (img : PILImage) :
    List (String × PILImage) :=
  storage.filter (fun entry => entry.1 != path) ++ [(path, img)]

/-- The two publishing strategies named by the specification. -/
inductive Strategy where
  | directPost
  | shareLink
  deriving Repr, DecidableEq

/-- The deployment configuration surface. -/
structure AppConfig where
  presets : List (Nat × Nat)
  format : String
  strategy : Strategy
  fixedMessageText : String
  deriving Repr, DecidableEq

/-- The active configuration, read off the constants of `src/main.py`:
the single 300x250 preset (line 86), JPEG output (line 97), the
share-link strategy (lines 94-108 are the only publish path), and the
fixed tweet text (line 105). -/
def appConfig : AppConfig :=
  { presets := [(300, 250)], format := "JPEG", strategy := Strategy.shareLink,
    fixedMessageText := "Check out this awesome image!" }

/-- Embedding of the `upload_image` handler (`src/main.py` lines
64-157). `decoder` is the PIL `Image.open` oracle (`none` models a
decode exception); `disk` tells whether a filesystem write to a given
path succeeds. Returns the handler outcome, the new server state, and
the trace of observable events in program order. -/
def upload_image (decoder : Bytes → Option PILImage) (disk : String → Bool)
    (file : UploadFileModel) (request : RequestModel) (st : ServerState) :
    Except UploadError UploadResponse × ServerState × List Event :=
  if file.content_type ∉ ["image/jpeg", "image/png"] then
    (Except.error
      (UploadError.unsupportedMediaType 400 "Unsupported file type. Only JPEG and PNG are allowed."),
     st, [])
  else
    match decoder file.contents with
    | none =>
        (Except.error (UploadError.invalidImageData 400 "Invalid image file."), st,
         [Event.readPixelData])
    | some image =>
        let target_size : Nat × Nat := (300, 250)
        let r := resize_image image target_size
        let resized_img := r.1
        let c :=
          if resized_img.mode ≠ "RGB" then
            (PIL_convert resized_img "RGB", [Event.converted resized_img.mode "RGB"])
          else
            (resized_img, ([] : List Event))
        let final_img := c.1
        let unique_filename := uuid4 st.uuidCounter ++ ".jpg"
        let save_path := os_path_join STATIC_DIR unique_filename
        if disk save_path then
          let image_url := request.base_url ++ "static/" ++ unique_filename
          let tweet_text := "Check out this awesome image!"
          let twitter_intent_url :=
            "https://twitter.com/intent/tweet?text=" ++ replaceChar tweet_text ' ' '+' ++
              "&url=" ++ image_url
          (Except.ok
            { image_url := image_url, twitter_intent_url := twitter_intent_url,
              html := html_response twitter_intent_url image_url },
           { storage := writeFile st.storage save_path final_img,
             uuidCounter := st.uuidCounter + 1 },
           [Event.readPixelData] ++ r.2 ++ c.2 ++ [Event.savedFile save_path "JPEG" final_img])
        else
          (Except.error (UploadError.storageWriteFailed save_path),
           { st with uuidCounter := st.uuidCounter + 1 },
           [Event.readPixelData] ++ r.2 ++ c.2)

/-- The path under which a request drawing UUID number `n` stores its
variant. -/
def save_path_of (n : Nat) : String :=
  os_path_join STATIC_DIR (uuid4 n ++ ".jpg")

/-- The stored-artifact URL a request drawing UUID number `n` reports,
given the inbound base URL. -/
def image_url_of (base_url : String) (n : Nat) : String :=
  base_url ++ "static/" ++ (uuid4 n ++ ".jpg")

/-- The Twitter intent URL built from a stored-artifact URL. -/
def intent_url_of (image_url : String) : String :=
  "https://twitter.com/intent/tweet?text=" ++
    replaceChar "Check out this awesome image!" ' ' '+' ++ "&url=" ++ image_url

/-- The server-state invariant: every stored file was named by an
earlier draw of the UUID stream. It holds of the initial empty state
and is preserved by every request. -/
def FreshNames (st : ServerState) : Prop :=
  ∀ e ∈ st.storage, ∃ k, k < st.uuidCounter ∧ e.1 = save_path_of k

/-- A decode oracle for a 500x500 RGBA PNG source. -/
def decoderRGBA : Bytes → Option PILImage :=
  fun _ => some { width := 500, height := 500, mode := "RGBA" }

/-- A decode oracle for bytes PIL cannot parse (`Image.open` raises). -/
def decoderFail : Bytes → Option PILImage := fun _ => none

/-- A decode oracle modelling PIL parsing GIF bytes: PIL identifies the
format from the byte content, so it happily returns a palette-mode
image no matter what content type was declared. -/
def decoderGif : Bytes → Option PILImage :=
  fun _ => some { width := 120, height := 90, mode := "P" }

/-- A filesystem on which every write succeeds. -/
def diskOk : String → Bool := fun _ => true

/-- A filesystem on which every write fails. -/
def diskFull : String → Bool := fun _ => false

/-- An uploaded PNG (signature bytes) declared as PNG. -/
def pngFile : UploadFileModel :=
  { content_type := "image/png", contents := [137, 80, 78, 71, 13, 10, 26, 10] }

/-- GIF content (the `GIF89a` magic) declared as PNG. -/
def gifFile : UploadFileModel :=
  { content_type := "image/png", contents := [71, 73, 70, 56, 57, 97] }

/-- A text upload with a disallowed declared content type. -/
def textFile : UploadFileModel :=
  { content_type := "text/plain", contents := [104, 105] }

/-- A truncated byte stream declared as JPEG. -/
def corruptJpegFile : UploadFileModel :=
  { content_type := "image/jpeg", contents := [255, 216, 0] }

/-- A concrete inbound request context. -/
def localReq : RequestModel := { base_url := "http://localhost:8000/" }

/-- The initial server state: empty static directory, no UUIDs drawn. -/
def emptyState : ServerState := { storage := [], uuidCounter := 0 }

/-- The response of the sample run `upload_image decoderRGBA diskOk
pngFile localReq emptyState`. -/
def resSample : UploadResponse :=
  { image_url := image_url_of "http://localhost:8000/" 0,
    twitter_intent_url := intent_url_of (image_url_of "http://localhost:8000/" 0),
    html := html_response (intent_url_of (image_url_of "http://localhost:8000/" 0))
      (image_url_of "http://localhost:8000/" 0) }

/-- The server state after the sample run. -/
def stSample : ServerState :=
  { storage := [(save_path_of 0, { width := 300, height := 250, mode := "RGB" })],
    uuidCounter := 1 }

/-- The event trace of the sample run. -/
def trSample : List Event :=
  [Event.readPixelData, Event.resized (300, 250) Resampling.LANCZOS,
   Event.converted "RGBA" "RGB",
   Event.savedFile (save_path_of 0) "JPEG" { width := 300, height := 250, mode := "RGB" }]

/-- The response of a second identical upload run from `stSample`. -/
def resSample2 : UploadResponse :=
  { image_url := image_url_of "http://localhost:8000/" 1,
    twitter_intent_url := intent_url_of (image_url_of "http://localhost:8000/" 1),
    html := html_response (intent_url_of (image_url_of "http://localhost:8000/" 1))
      (image_url_of "http://localhost:8000/" 1) }

/-- The server state after the second sample run. -/
def stSample2 : ServerState :=
  { storage := [(save_path_of 0, { width := 300, height := 250, mode := "RGB" }),
                (save_path_of 1, { width := 300, height := 250, mode := "RGB" })],
    uuidCounter := 2 }

/-- The event trace of the second sample run. -/
def trSample2 : List Event :=
  [Event.readPixelData, Event.resized (300, 250) Resampling.LANCZOS,
   Event.converted "RGBA" "RGB",
   Event.savedFile (save_path_of 1) "JPEG" { width := 300, height := 250, mode := "RGB" }]

/-- On a disallowed declared content type the handler fails immediately:
no event happens and the state is untouched. -/
theorem upload_unsupported_eq (decoder : Bytes → Option PILImage) (disk : String → Bool)
    (file : UploadFileModel) (request : RequestModel) (st : ServerState)
    (hct : file.content_type ∉ ["image/jpeg", "image/png"]) :
    upload_image decoder disk file request st =
      (Except.error
        (UploadError.unsupportedMediaType 400
          "Unsupported file type. Only JPEG and PNG are allowed."),
       st, []) := by
  simp [upload_image, hct]

/-- On decode failure the handler fails with the invalid-image error
after reading the bytes, leaving the state untouched. -/
theorem upload_decode_fail_eq (decoder : Bytes → Option PILImage) (disk : String → Bool)
    (file : UploadFileModel) (request : RequestModel) (st : ServerState)
    (hct : file.content_type ∈ ["image/jpeg", "image/png"])
    (hdec : decoder file.contents = none) :
    upload_image decoder disk file request st =
      (Except.error (UploadError.invalidImageData 400 "Invalid image file."), st,
       [Event.readPixelData]) := by
  simp [upload_image, hct, hdec]

/-- Full characterization of a successful run: decode succeeded and the
filesystem write went through. -/
theorem upload_ok_eq (decoder : Bytes → Option PILImage) (disk : String → Bool)
    (file : UploadFileModel) (request : RequestModel) (st : ServerState)
    (image : PILImage)
    (hct : file.content_type ∈ ["image/jpeg", "image/png"])
    (hdec : decoder file.contents = some image)
    (hdisk : disk (save_path_of st.uuidCounter) = true) :
    upload_image decoder disk file request st =
      (Except.ok
        { image_url := image_url_of request.base_url st.uuidCounter,
          twitter_intent_url := intent_url_of (image_url_of request.base_url st.uuidCounter),
          html := html_response (intent_url_of (image_url_of request.base_url st.uuidCounter))
            (image_url_of request.base_url st.uuidCounter) },
       { storage := writeFile st.storage (save_path_of st.uuidCounter)
           { width := 300, height := 250, mode := "RGB" },
         uuidCounter := st.uuidCounter + 1 },
       [Event.readPixelData, Event.resized (300, 250) Resampling.LANCZOS] ++
         (if image.mode = "RGB" then [] else [Event.converted image.mode "RGB"]) ++
         [Event.savedFile (save_path_of st.uuidCounter) "JPEG"
           { width := 300, height := 250, mode := "RGB" }]) := by
  simp only [save_path_of, os_path_join] at hdisk
  by_cases hm : image.mode = "RGB" <;>
    simp [upload_image, hct, hdec, hm, resize_image, PIL_resize, PIL_convert,
      save_path_of, image_url_of, intent_url_of, os_path_join, hdisk]

/-- Full characterization of a run where the filesystem write fails:
the variant was generated but the storage and response are not. -/
theorem upload_disk_fail_eq (decoder : Bytes → Option PILImage) (disk : String → Bool)
    (file : UploadFileModel) (request : RequestModel) (st : ServerState)
    (image : PILImage)
    (hct : file.content_type ∈ ["image/jpeg", "image/png"])
    (hdec : decoder file.contents = some image)
    (hdisk : disk (save_path_of st.uuidCounter) = false) :
    upload_image decoder disk file request st =
      (Except.error (UploadError.storageWriteFailed (save_path_of st.uuidCounter)),
       { storage := st.storage, uuidCounter := st.uuidCounter + 1 },
       [Event.readPixelData, Event.resized (300, 250) Resampling.LANCZOS] ++
         (if image.mode = "RGB" then [] else [Event.converted image.mode "RGB"])) := by
  simp only [save_path_of, os_path_join] at hdisk
  by_cases hm : image.mode = "RGB" <;>
    simp [upload_image, hct, hdec, hm, resize_image, PIL_resize, PIL_convert,
      save_path_of, os_path_join, hdisk]

/-- Distinct draws of the modelled UUID stream yield distinct strings. -/
theorem uuid4_injective : Function.Injective uuid4 := by
  intro m n h
  have hd := congrArg (fun s => s.data.length) h
  simp [uuid4] at hd
  omega

/-- Distinct UUID draws yield distinct storage paths. -/
theorem save_path_of_injective : Function.Injective save_path_of := by
  intro m n h
  have hd := congrArg (fun s => s.data.length) h
  simp [save_path_of, os_path_join, uuid4] at hd
  omega

/-- Writing to a path that is not yet stored appends the new file and
touches nothing that was already stored. -/
theorem writeFile_not_mem (storage : List (String × PILImage)) (path : String)
    (img : PILImage) (h : ∀ e ∈ storage, e.1 ≠ path) :
    writeFile storage path img = storage ++ [(path, img)] := by
  unfold writeFile
  congr 1
  apply List.filter_eq_self.mpr
  intro a ha
  simpa using h a ha

/-- Every entry of a post-write storage is either an old entry or the
newly written file. -/
theorem mem_writeFile (storage : List (String × PILImage)) (path : String)
    (img : PILImage) (e : String × PILImage) (h : e ∈ writeFile storage path img) :
    e ∈ storage ∨ e = (path, img) := by
  simp only [writeFile, List.mem_append, List.mem_filter, List.mem_singleton] at h
  rcases h with ⟨h1, _⟩ | h2
  · exact Or.inl h1
  · exact Or.inr h2

/-- Under the invariant, the next UUID draw names a path that is not in
storage yet. -/
theorem fresh_not_stored (st : ServerState) (h : FreshNames st) :
    ∀ e ∈ st.storage, e.1 ≠ save_path_of st.uuidCounter := by
  intro e he heq
  obtain ⟨k, hk, hname⟩ := h e he
  have : k = st.uuidCounter := save_path_of_injective (hname.symm.trans heq)
  omega

/-- Inversion of a successful run: the declared type was allowed, decode
succeeded, the write went through, and state, response and trace have
the canonical shape. -/
theorem upload_ok_inv (decoder : Bytes → Option PILImage) (disk : String → Bool)
    (file : UploadFileModel) (request : RequestModel) (st : ServerState)
    (res : UploadResponse) (st' : ServerState) (tr : List Event)
    (h : upload_image decoder disk file request st = (Except.ok res, st', tr)) :
    ∃ image, file.content_type ∈ ["image/jpeg", "image/png"] ∧
      decoder file.contents = some image ∧
      disk (save_path_of st.uuidCounter) = true ∧
      st' = { storage := writeFile st.storage (save_path_of st.uuidCounter)
                { width := 300, height := 250, mode := "RGB" },
              uuidCounter := st.uuidCounter + 1 } ∧
      res = { image_url := image_url_of request.base_url st.uuidCounter,
              twitter_intent_url := intent_url_of (image_url_of request.base_url st.uuidCounter),
              html := html_response
                (intent_url_of (image_url_of request.base_url st.uuidCounter))
                (image_url_of request.base_url st.uuidCounter) } ∧
      tr = [Event.readPixelData, Event.resized (300, 250) Resampling.LANCZOS] ++
        (if image.mode = "RGB" then [] else [Event.converted image.mode "RGB"]) ++
        [Event.savedFile (save_path_of st.uuidCounter) "JPEG"
          { width := 300, height := 250, mode := "RGB" }] := by
  by_cases hct : file.content_type ∈ ["image/jpeg", "image/png"]
  · cases hdec : decoder file.contents with
    | none =>
        rw [upload_decode_fail_eq decoder disk file request st hct hdec] at h
        simp at h
    | some image =>
        cases hdisk : disk (save_path_of st.uuidCounter) with
        | false =>
            rw [upload_disk_fail_eq decoder disk file request st image hct hdec hdisk] at h
            simp at h
        | true =>
            rw [upload_ok_eq decoder disk file request st image hct hdec hdisk] at h
            simp only [Prod.mk.injEq, Except.ok.injEq] at h
            exact ⟨image, hct, rfl, rfl, h.2.1.symm, h.1.symm, h.2.2.symm⟩
  · rw [upload_unsupported_eq decoder disk file request st hct] at h
    simp at h

/-- Every request preserves the freshness invariant. -/
theorem upload_preserves_fresh (decoder : Bytes → Option PILImage) (disk : String → Bool)
    (file : UploadFileModel) (request : RequestModel) (st : ServerState)
    (h : FreshNames st) :
    FreshNames (upload_image decoder disk file request st).2.1 := by
  by_cases hct : file.content_type ∈ ["image/jpeg", "image/png"]
  · cases hdec : decoder file.contents with
    | none =>
        rw [upload_decode_fail_eq decoder disk file request st hct hdec]
        exact h
    | some image =>
        cases hdisk : disk (save_path_of st.uuidCounter) with
        | false =>
            rw [upload_disk_fail_eq decoder disk file request st image hct hdec hdisk]
            dsimp only
            intro e he
            obtain ⟨k, hk, hname⟩ := h e he
            exact ⟨k, Nat.lt_succ_of_lt hk, hname⟩
        | true =>
            rw [upload_ok_eq decoder disk file request st image hct hdec hdisk]
            dsimp only
            intro e he
            rcases mem_writeFile st.storage (save_path_of st.uuidCounter)
                { width := 300, height := 250, mode := "RGB" } e he with hold | hnew
            · obtain ⟨k, hk, hname⟩ := h e hold
              exact ⟨k, Nat.lt_succ_of_lt hk, hname⟩
            · exact ⟨st.uuidCounter, Nat.lt_succ_self _, by rw [hnew]⟩
  · rw [upload_unsupported_eq decoder disk file request st hct]
    exact h

/-- C1: for every successfully decoded source image, the run resamples
to exactly the 300x250 preset with the Lanczos filter, every encoded
variant has exactly those dimensions and mode RGB, and an RGB
conversion happens exactly when the resized image's mode is not
already RGB. -/
theorem C1_variant_size_lanczos_rgb (decoder : Bytes → Option PILImage)
    (disk : String → Bool) (file : UploadFileModel) (request : RequestModel)
    (st : ServerState) (image : PILImage)
    (hct : file.content_type ∈ ["image/jpeg", "image/png"])
    (hdec : decoder file.contents = some image) :
    Event.resized (300, 250) Resampling.LANCZOS ∈
      (upload_image decoder disk file request st).2.2 ∧
    (∀ p fmt img2, Event.savedFile p fmt img2 ∈
        (upload_image decoder disk file request st).2.2 →
      img2.width = 300 ∧ img2.height = 250 ∧ img2.mode = "RGB") ∧
    (image.mode ≠ "RGB" →
      Event.converted image.mode "RGB" ∈ (upload_image decoder disk file request st).2.2) ∧
    (image.mode = "RGB" →
      ∀ a b, Event.converted a b ∉ (upload_image decoder disk file request st).2.2) := by
  cases hdisk : disk (save_path_of st.uuidCounter) with
  | true =>
      rw [upload_ok_eq decoder disk file request st image hct hdec hdisk]
      by_cases hm : image.mode = "RGB" <;> simp [hm] <;>
        rintro p fmt img2 _ _ rfl <;> exact ⟨rfl, rfl, rfl⟩
  | false =>
      rw [upload_disk_fail_eq decoder disk file request st image hct hdec hdisk]
      by_cases hm : image.mode = "RGB" <;> simp [hm]

/-- Witness for C1 at a concrete 500x500 RGBA upload. -/
theorem C1_variant_size_lanczos_rgb_witness :
    pngFile.content_type ∈ ["image/jpeg", "image/png"] ∧
    decoderRGBA pngFile.contents = some { width := 500, height := 500, mode := "RGBA" } ∧
    (Event.resized (300, 250) Resampling.LANCZOS ∈
      (upload_image decoderRGBA diskOk pngFile localReq emptyState).2.2 ∧
    (∀ p fmt img2, Event.savedFile p fmt img2 ∈
        (upload_image decoderRGBA diskOk pngFile localReq emptyState).2.2 →
      img2.width = 300 ∧ img2.height = 250 ∧ img2.mode = "RGB") ∧
    ((PILImage.mk 500 500 "RGBA").mode ≠ "RGB" →
      Event.converted (PILImage.mk 500 500 "RGBA").mode "RGB" ∈
        (upload_image decoderRGBA diskOk pngFile localReq emptyState).2.2) ∧
    ((PILImage.mk 500 500 "RGBA").mode = "RGB" →
      ∀ a b, Event.converted a b ∉
        (upload_image decoderRGBA diskOk pngFile localReq emptyState).2.2)) :=
  ⟨by decide, rfl,
    C1_variant_size_lanczos_rgb decoderRGBA diskOk pngFile localReq emptyState
      { width := 500, height := 500, mode := "RGBA" } (by decide) rfl⟩

/-- C2: a declared content type outside the JPEG/PNG allow-list is
rejected with the unsupported-media-type error before any event (in
particular before the bytes are read or decoded); an allowed declared
content type is never rejected with that error. -/
theorem C2_content_type_allowlist (decoder : Bytes → Option PILImage)
    (disk : String → Bool) (file : UploadFileModel) (request : RequestModel)
    (st : ServerState) :
    (file.content_type ∉ ["image/jpeg", "image/png"] →
      upload_image decoder disk file request st =
        (Except.error (UploadError.unsupportedMediaType 400
          "Unsupported file type. Only JPEG and PNG are allowed."), st, [])) ∧
    (file.content_type ∈ ["image/jpeg", "image/png"] →
      ∀ c d, (upload_image decoder disk file request st).1 ≠
        Except.error (UploadError.unsupportedMediaType c d)) := by
  constructor
  · intro hct
    exact upload_unsupported_eq decoder disk file request st hct
  · intro hct c d
    cases hdec : decoder file.contents with
    | none =>
        rw [upload_decode_fail_eq decoder disk file request st hct hdec]
        simp
    | some image =>
        cases hdisk : disk (save_path_of st.uuidCounter) with
        | true =>
            rw [upload_ok_eq decoder disk file request st image hct hdec hdisk]
            simp
        | false =>
            rw [upload_disk_fail_eq decoder disk file request st image hct hdec hdisk]
            simp

/-- Witness for C2: a text upload is rejected untouched with no event,
and a PNG upload is never rejected for its media type. -/
theorem C2_content_type_allowlist_witness :
    textFile.content_type ∉ ["image/jpeg", "image/png"] ∧
    upload_image decoderFail diskOk textFile localReq emptyState =
      (Except.error (UploadError.unsupportedMediaType 400
        "Unsupported file type. Only JPEG and PNG are allowed."), emptyState, []) ∧
    pngFile.content_type ∈ ["image/jpeg", "image/png"] ∧
    (∀ c d, (upload_image decoderRGBA diskOk pngFile localReq emptyState).1 ≠
      Except.error (UploadError.unsupportedMediaType c d)) :=
  ⟨by decide,
   (C2_content_type_allowlist decoderFail diskOk textFile localReq emptyState).1 (by decide),
   by decide,
   (C2_content_type_allowlist decoderRGBA diskOk pngFile localReq emptyState).2 (by decide)⟩

/-- C3: undecodable bytes fail with the invalid-image-data error and
the pipeline never reaches the resize step. -/
theorem C3_undecodable_rejected (decoder : Bytes → Option PILImage)
    (disk : String → Bool) (file : UploadFileModel) (request : RequestModel)
    (st : ServerState)
    (hct : file.content_type ∈ ["image/jpeg", "image/png"])
    (hdec : decoder file.contents = none) :
    upload_image decoder disk file request st =
      (Except.error (UploadError.invalidImageData 400 "Invalid image file."), st,
       [Event.readPixelData]) ∧
    ∀ s fl, Event.resized s fl ∉ (upload_image decoder disk file request st).2.2 := by
  have h := upload_decode_fail_eq decoder disk file request st hct hdec
  refine ⟨h, ?_⟩
  rw [h]
  simp

/-- Witness for C3 at a concrete corrupt JPEG upload. -/
theorem C3_undecodable_rejected_witness :
    corruptJpegFile.content_type ∈ ["image/jpeg", "image/png"] ∧
    decoderFail corruptJpegFile.contents = none ∧
    (upload_image decoderFail diskOk corruptJpegFile localReq emptyState =
      (Except.error (UploadError.invalidImageData 400 "Invalid image file."), emptyState,
       [Event.readPixelData]) ∧
    ∀ s fl, Event.resized s fl ∉
      (upload_image decoderFail diskOk corruptJpegFile localReq emptyState).2.2) :=
  ⟨by decide, rfl,
    C3_undecodable_rejected decoderFail diskOk corruptJpegFile localReq emptyState
      (by decide) rfl⟩

/-- C4: whenever the handler returns a publish result, the trace ends
with the storage write of the variant, every configured preset's
variant was resampled before that write, and the result's stored-file
URL names exactly the file that write produced. -/
theorem C4_publish_after_all_variants (decoder : Bytes → Option PILImage)
    (disk : String → Bool) (file : UploadFileModel) (request : RequestModel)
    (st : ServerState) (res : UploadResponse) (st' : ServerState) (tr : List Event)
    (h : upload_image decoder disk file request st = (Except.ok res, st', tr)) :
    ∃ tr1 img, tr = tr1 ++ [Event.savedFile (save_path_of st.uuidCounter) "JPEG" img] ∧
      (∀ p ∈ appConfig.presets, Event.resized p Resampling.LANCZOS ∈ tr1) ∧
      res.image_url = image_url_of request.base_url st.uuidCounter := by
  obtain ⟨image, hct, hdec, hdisk, hst, hres, htr⟩ :=
    upload_ok_inv decoder disk file request st res st' tr h
  refine ⟨[Event.readPixelData, Event.resized (300, 250) Resampling.LANCZOS] ++
    (if image.mode = "RGB" then [] else [Event.converted image.mode "RGB"]),
    { width := 300, height := 250, mode := "RGB" }, htr, ?_, by rw [hres]⟩
  intro p hp
  simp [appConfig] at hp
  simp [hp]

/-- Witness for C4 at the sample RGBA run. -/
theorem C4_publish_after_all_variants_witness :
    upload_image decoderRGBA diskOk pngFile localReq emptyState =
      (Except.ok resSample, stSample, trSample) ∧
    (∃ tr1 img, trSample = tr1 ++
        [Event.savedFile (save_path_of emptyState.uuidCounter) "JPEG" img] ∧
      (∀ p ∈ appConfig.presets, Event.resized p Resampling.LANCZOS ∈ tr1) ∧
      resSample.image_url = image_url_of localReq.base_url emptyState.uuidCounter) :=
  ⟨rfl, C4_publish_after_all_variants decoderRGBA diskOk pngFile localReq emptyState
    resSample stSample trSample rfl⟩

/-- C5: from a state satisfying the freshness invariant, two successive
successful share-link calls store their artifacts under distinct names,
and each write only appends to storage, overwriting nothing. -/
theorem C5_distinct_names_no_overwrite (d1 d2 : Bytes → Option PILImage)
    (k1 k2 : String → Bool) (f1 f2 : UploadFileModel) (r1 r2 : RequestModel)
    (st0 st1 st2 : ServerState) (res1 res2 : UploadResponse) (tr1 tr2 : List Event)
    (h0 : FreshNames st0)
    (h1 : upload_image d1 k1 f1 r1 st0 = (Except.ok res1, st1, tr1))
    (h2 : upload_image d2 k2 f2 r2 st1 = (Except.ok res2, st2, tr2)) :
    save_path_of st0.uuidCounter ≠ save_path_of st1.uuidCounter ∧
    st1.storage = st0.storage ++
      [(save_path_of st0.uuidCounter, { width := 300, height := 250, mode := "RGB" })] ∧
    st2.storage = st1.storage ++
      [(save_path_of st1.uuidCounter, { width := 300, height := 250, mode := "RGB" })] := by
  obtain ⟨img1, hct1, hdec1, hdisk1, hst1, hres1, htr1⟩ :=
    upload_ok_inv d1 k1 f1 r1 st0 res1 st1 tr1 h1
  have hf1 : FreshNames st1 := by
    have hp := upload_preserves_fresh d1 k1 f1 r1 st0 h0
    rw [h1] at hp
    exact hp
  obtain ⟨img2, hct2, hdec2, hdisk2, hst2, hres2, htr2⟩ :=
    upload_ok_inv d2 k2 f2 r2 st1 res2 st2 tr2 h2
  have hc1 : st1.uuidCounter = st0.uuidCounter + 1 := by rw [hst1]
  refine ⟨?_, ?_, ?_⟩
  · intro heq
    have := save_path_of_injective heq
    omega
  · rw [hst1]
    dsimp only
    rw [writeFile_not_mem _ _ _ (fresh_not_stored st0 h0)]
  · rw [hst2]
    dsimp only
    rw [writeFile_not_mem _ _ _ (fresh_not_stored st1 hf1)]

/-- Witness for C5: two concrete identical uploads from the empty
state store two distinct files side by side. -/
theorem C5_distinct_names_no_overwrite_witness :
    FreshNames emptyState ∧
    upload_image decoderRGBA diskOk pngFile localReq emptyState =
      (Except.ok resSample, stSample, trSample) ∧
    upload_image decoderRGBA diskOk pngFile localReq stSample =
      (Except.ok resSample2, stSample2, trSample2) ∧
    (save_path_of emptyState.uuidCounter ≠ save_path_of stSample.uuidCounter ∧
     stSample.storage = emptyState.storage ++
       [(save_path_of emptyState.uuidCounter, { width := 300, height := 250, mode := "RGB" })] ∧
     stSample2.storage = stSample.storage ++
       [(save_path_of stSample.uuidCounter, { width := 300, height := 250, mode := "RGB" })]) :=
  ⟨fun e he => absurd he (by simp [emptyState]), rfl, rfl,
    C5_distinct_names_no_overwrite decoderRGBA decoderRGBA diskOk diskOk pngFile pngFile
      localReq localReq emptyState stSample stSample2 resSample resSample2 trSample trSample2
      (fun e he => absurd he (by simp [emptyState])) rfl rfl⟩

/-- C6: every successful response carries a Twitter intent URL whose
text parameter is the configured message with spaces replaced by plus
signs and whose url parameter is the stored artifact's URL, itself
built from the request's base address followed by the UUID-named
`.jpg` file. -/
theorem C6_intent_url_contract (decoder : Bytes → Option PILImage)
    (disk : String → Bool) (file : UploadFileModel) (request : RequestModel)
    (st : ServerState) (res : UploadResponse) (st' : ServerState) (tr : List Event)
    (h : upload_image decoder disk file request st = (Except.ok res, st', tr)) :
    res.twitter_intent_url = "https://twitter.com/intent/tweet?text=" ++
      replaceChar appConfig.fixedMessageText ' ' '+' ++ "&url=" ++ res.image_url ∧
    replaceChar appConfig.fixedMessageText ' ' '+' = "Check+out+this+awesome+image!" ∧
    res.image_url = request.base_url ++ "static/" ++ (uuid4 st.uuidCounter ++ ".jpg") := by
  obtain ⟨image, hct, hdec, hdisk, hst, hres, htr⟩ :=
    upload_ok_inv decoder disk file request st res st' tr h
  rw [hres]
  exact ⟨rfl, by decide, rfl⟩

/-- Witness for C6 at the sample RGBA run. -/
theorem C6_intent_url_contract_witness :
    upload_image decoderRGBA diskOk pngFile localReq emptyState =
      (Except.ok resSample, stSample, trSample) ∧
    (resSample.twitter_intent_url = "https://twitter.com/intent/tweet?text=" ++
      replaceChar appConfig.fixedMessageText ' ' '+' ++ "&url=" ++ resSample.image_url ∧
    replaceChar appConfig.fixedMessageText ' ' '+' = "Check+out+this+awesome+image!" ∧
    resSample.image_url = localReq.base_url ++ "static/" ++
      (uuid4 emptyState.uuidCounter ++ ".jpg")) :=
  ⟨rfl, C6_intent_url_contract decoderRGBA diskOk pngFile localReq emptyState
    resSample stSample trSample rfl⟩

/-- No request, whatever its content or outcome, ever performs an
authentication, a remote media upload, or a remote post. -/
theorem upload_no_remote_events (decoder : Bytes → Option PILImage)
    (disk : String → Bool) (file : UploadFileModel) (request : RequestModel)
    (st : ServerState) :
    Event.authenticated ∉ (upload_image decoder disk file request st).2.2 ∧
    Event.uploadedMedia ∉ (upload_image decoder disk file request st).2.2 ∧
    Event.createdPost ∉ (upload_image decoder disk file request st).2.2 := by
  by_cases hct : file.content_type ∈ ["image/jpeg", "image/png"]
  · cases hdec : decoder file.contents with
    | none =>
        rw [upload_decode_fail_eq decoder disk file request st hct hdec]
        simp
    | some image =>
        cases hdisk : disk (save_path_of st.uuidCounter) with
        | true =>
            rw [upload_ok_eq decoder disk file request st image hct hdec hdisk]
            by_cases hm : image.mode = "RGB" <;> simp [hm]
        | false =>
            rw [upload_disk_fail_eq decoder disk file request st image hct hdec hdisk]
            by_cases hm : image.mode = "RGB" <;> simp [hm]
  · rw [upload_unsupported_eq decoder disk file request st hct]
    simp

/-- C7: the preset list, the output format, the message text and the
publish strategy used by a request are exactly the configured ones,
for every request whatever its content: every resample targets a
configured preset, every encode uses the configured format, the intent
URL carries the configured message, no direct-post action ever
happens, and the share-link strategy is the configured one. -/
theorem C7_behaviour_from_config (decoder : Bytes → Option PILImage)
    (disk : String → Bool) (file : UploadFileModel) (request : RequestModel)
    (st : ServerState) :
    appConfig.strategy = Strategy.shareLink ∧
    Event.authenticated ∉ (upload_image decoder disk file request st).2.2 ∧
    Event.uploadedMedia ∉ (upload_image decoder disk file request st).2.2 ∧
    Event.createdPost ∉ (upload_image decoder disk file request st).2.2 ∧
    (∀ s fl, Event.resized s fl ∈ (upload_image decoder disk file request st).2.2 →
      s ∈ appConfig.presets ∧ fl = Resampling.LANCZOS) ∧
    (∀ p fmt img2, Event.savedFile p fmt img2 ∈
        (upload_image decoder disk file request st).2.2 → fmt = appConfig.format) ∧
    (∀ res, (upload_image decoder disk file request st).1 = Except.ok res →
      res.twitter_intent_url = "https://twitter.com/intent/tweet?text=" ++
        replaceChar appConfig.fixedMessageText ' ' '+' ++ "&url=" ++ res.image_url) := by
  obtain ⟨ha, hu, hp⟩ := upload_no_remote_events decoder disk file request st
  refine ⟨rfl, ha, hu, hp, ?_, ?_, ?_⟩ <;>
  · by_cases hct : file.content_type ∈ ["image/jpeg", "image/png"]
    · cases hdec : decoder file.contents with
      | none =>
          rw [upload_decode_fail_eq decoder disk file request st hct hdec]
          simp
      | some image =>
          cases hdisk : disk (save_path_of st.uuidCounter) with
          | true =>
              rw [upload_ok_eq decoder disk file request st image hct hdec hdisk]
              by_cases hm : image.mode = "RGB" <;>
                simp [hm, appConfig, intent_url_of, image_url_of] <;>
                try exact fun p fmt img2 h1 h2 h3 => h2
          | false =>
              rw [upload_disk_fail_eq decoder disk file request st image hct hdec hdisk]
              by_cases hm : image.mode = "RGB" <;> simp [hm, appConfig]
    · rw [upload_unsupported_eq decoder disk file request st hct]
      simp

/-- Witness for C7: in the sample run, the encode used the configured
format, the resample used the configured preset, and the intent URL
carries the configured message. -/
theorem C7_behaviour_from_config_witness :
    appConfig.strategy = Strategy.shareLink ∧
    ((300, 250) ∈ appConfig.presets ∧ Resampling.LANCZOS = Resampling.LANCZOS) ∧
    "JPEG" = appConfig.format ∧
    resSample.twitter_intent_url = "https://twitter.com/intent/tweet?text=" ++
      replaceChar appConfig.fixedMessageText ' ' '+' ++ "&url=" ++ resSample.image_url := by
  have h := C7_behaviour_from_config decoderRGBA diskOk pngFile localReq emptyState
  exact ⟨h.1,
    h.2.2.2.2.1 (300, 250) Resampling.LANCZOS (by decide),
    h.2.2.2.2.2.1 (save_path_of 0) "JPEG" { width := 300, height := 250, mode := "RGB" }
      (by decide),
    h.2.2.2.2.2.2 resSample rfl⟩

/-- C8: the share-link path never authenticates and never uploads to a
remote service, and any failure of a request that already generated
its variant is a storage-write failure that leaves storage unchanged. -/
theorem C8_sharelink_failure_modes (decoder : Bytes → Option PILImage)
    (disk : String → Bool) (file : UploadFileModel) (request : RequestModel)
    (st : ServerState) :
    Event.authenticated ∉ (upload_image decoder disk file request st).2.2 ∧
    Event.uploadedMedia ∉ (upload_image decoder disk file request st).2.2 ∧
    Event.createdPost ∉ (upload_image decoder disk file request st).2.2 ∧
    (∀ e, (upload_image decoder disk file request st).1 = Except.error e →
      (∃ s fl, Event.resized s fl ∈ (upload_image decoder disk file request st).2.2) →
      (∃ p, e = UploadError.storageWriteFailed p) ∧
        (upload_image decoder disk file request st).2.1.storage = st.storage) := by
  obtain ⟨ha, hu, hp⟩ := upload_no_remote_events decoder disk file request st
  refine ⟨ha, hu, hp, ?_⟩
  intro e he hres
  by_cases hct : file.content_type ∈ ["image/jpeg", "image/png"]
  · cases hdec : decoder file.contents with
    | none =>
        rw [upload_decode_fail_eq decoder disk file request st hct hdec] at hres
        simp at hres
    | some image =>
        cases hdisk : disk (save_path_of st.uuidCounter) with
        | true =>
            rw [upload_ok_eq decoder disk file request st image hct hdec hdisk] at he
            simp at he
        | false =>
            rw [upload_disk_fail_eq decoder disk file request st image hct hdec hdisk] at he ⊢
            simp at he
            exact ⟨⟨save_path_of st.uuidCounter, he.symm⟩, rfl⟩
  · rw [upload_unsupported_eq decoder disk file request st hct] at hres
    simp at hres

/-- Witness for C8: a full disk makes the sample run fail with exactly
the storage-write error, with storage untouched. -/
theorem C8_sharelink_failure_modes_witness :
    (upload_image decoderRGBA diskFull pngFile localReq emptyState).1 =
      Except.error (UploadError.storageWriteFailed (save_path_of 0)) ∧
    (∃ s fl, Event.resized s fl ∈
      (upload_image decoderRGBA diskFull pngFile localReq emptyState).2.2) ∧
    ((∃ p, UploadError.storageWriteFailed (save_path_of 0) =
        UploadError.storageWriteFailed p) ∧
      (upload_image decoderRGBA diskFull pngFile localReq emptyState).2.1.storage =
        emptyState.storage) := by
  have h := C8_sharelink_failure_modes decoderRGBA diskFull pngFile localReq emptyState
  exact ⟨rfl, ⟨(300, 250), Resampling.LANCZOS, by decide⟩,
    h.2.2.2 (UploadError.storageWriteFailed (save_path_of 0)) rfl
      ⟨(300, 250), Resampling.LANCZOS, by decide⟩⟩

/-- C9: the declared content type is never checked against the byte
content: whenever the declared type is allowed and the bytes decode to
any image at all (of whatever real format) and the disk accepts the
write, the request completes successfully. -/
theorem C9_no_content_sniffing (decoder : Bytes → Option PILImage)
    (disk : String → Bool) (file : UploadFileModel) (request : RequestModel)
    (st : ServerState) (image : PILImage)
    (hct : file.content_type ∈ ["image/jpeg", "image/png"])
    (hdec : decoder file.contents = some image)
    (hdisk : disk (save_path_of st.uuidCounter) = true) :
    ∃ res, (upload_image decoder disk file request st).1 = Except.ok res := by
  rw [upload_ok_eq decoder disk file request st image hct hdec hdisk]
  exact ⟨_, rfl⟩

/-- Witness for C9: GIF content declared as PNG is processed to
completion. -/
theorem C9_no_content_sniffing_witness :
    gifFile.content_type ∈ ["image/jpeg", "image/png"] ∧
    decoderGif gifFile.contents = some { width := 120, height := 90, mode := "P" } ∧
    diskOk (save_path_of emptyState.uuidCounter) = true ∧
    (∃ res, (upload_image decoderGif diskOk gifFile localReq emptyState).1 =
      Except.ok res) :=
  ⟨by decide, rfl, rfl,
    C9_no_content_sniffing decoderGif diskOk gifFile localReq emptyState
      { width := 120, height := 90, mode := "P" } (by decide) rfl rfl⟩

/-- C10: on the unsupported-media-type and invalid-image-data failure
paths the server state, in particular the static storage, is exactly
what it was before the request. -/
theorem C10_storage_unchanged_on_reject (decoder : Bytes → Option PILImage)
    (disk : String → Bool) (file : UploadFileModel) (request : RequestModel)
    (st : ServerState) :
    (∀ c d, (upload_image decoder disk file request st).1 =
        Except.error (UploadError.unsupportedMediaType c d) →
      (upload_image decoder disk file request st).2.1 = st) ∧
    (∀ c d, (upload_image decoder disk file request st).1 =
        Except.error (UploadError.invalidImageData c d) →
      (upload_image decoder disk file request st).2.1 = st) := by
  by_cases hct : file.content_type ∈ ["image/jpeg", "image/png"]
  · cases hdec : decoder file.contents with
    | none =>
        rw [upload_decode_fail_eq decoder disk file request st hct hdec]
        simp
    | some image =>
        cases hdisk : disk (save_path_of st.uuidCounter) with
        | true =>
            rw [upload_ok_eq decoder disk file request st image hct hdec hdisk]
            simp
        | false =>
            rw [upload_disk_fail_eq decoder disk file request st image hct hdec hdisk]
            simp
  · rw [upload_unsupported_eq decoder disk file request st hct]
    simp

/-- Witness for C10: the concrete rejected text upload leaves the
state exactly as it was. -/
theorem C10_storage_unchanged_on_reject_witness :
    (upload_image decoderFail diskOk textFile localReq emptyState).1 =
      Except.error (UploadError.unsupportedMediaType 400
        "Unsupported file type. Only JPEG and PNG are allowed.") ∧
    (upload_image decoderFail diskOk textFile localReq emptyState).2.1 = emptyState := by
  have h := C10_storage_unchanged_on_reject decoderFail diskOk textFile localReq emptyState
  exact ⟨rfl,
    h.1 400 "Unsupported file type. Only JPEG and PNG are allowed." rfl⟩

end Z1
